import Mathlib

/-!
Verification of the plum_ecomax Home Assistant integration against its
specification.  The definitions below are a shallow embedding of the
Python sources under custom_components/plum_ecomax: pure mapping tables
become Lean association lists, the service handlers become pure functions
over an explicit model of the device outcomes (the pyplumio library calls
are the inputs), and exceptions become `Except` values.  Floating point
temperatures are modelled as rationals: the code only ever compares them
for equality.
-/

namespace PlumEcomax

/-! ### climate.py: preset constants and mapping tables -/

def PRESET_SCHEDULE : String := "schedule"

def PRESET_ECO : String := "eco"

def PRESET_COMFORT : String := "comfort"

def PRESET_AWAY : String := "away"

def PRESET_AIRING : String := "airing"

def PRESET_PARTY : String := "party"

def PRESET_HOLIDAYS : String := "holidays"

def PRESET_ANTIFREEZE : String := "antifreeze"

def PRESET_UNKNOWN : String := "unknown"

/-- `EM_TO_HA_MODE`: dict from device mode code to Home Assistant preset
name (climate.py lines 43-52), embedded as an association list in source
order.  Device mode codes are ints. -/
def EM_TO_HA_MODE : List (Int × String) :=
  [(0, PRESET_SCHEDULE),
   (1, PRESET_ECO),
   (2, PRESET_COMFORT),
   (3, PRESET_AWAY),
   (4, PRESET_AIRING),
   (5, PRESET_PARTY),
   (6, PRESET_HOLIDAYS),
   (7, PRESET_ANTIFREEZE)]

/-- `HA_TO_EM_MODE = {v: k for k, v in EM_TO_HA_MODE.items()}`
(climate.py line 53). -/
def HA_TO_EM_MODE : List (String × Int) :=
  EM_TO_HA_MODE.map (fun p => (p.2, p.1))

/-- `HA_PRESET_TO_EM_TEMP` (climate.py lines 55-62): preset name to the
name of the device parameter holding that preset's target temperature. -/
def HA_PRESET_TO_EM_TEMP : List (String × String) :=
  [(PRESET_ECO, "night_target_temp"),
   (PRESET_COMFORT, "day_target_temp"),
   (PRESET_AWAY, "night_target_temp"),
   (PRESET_PARTY, "party_target_temp"),
   (PRESET_HOLIDAYS, "holidays_target_temp"),
   (PRESET_ANTIFREEZE, "antifreeze_target_temp")]

/-- `CLIMATE_MODES` (climate.py lines 64-73), the value assigned to
`ThermostatClimate._attr_preset_modes`. -/
def CLIMATE_MODES : List String :=
  [PRESET_SCHEDULE,
   PRESET_ECO,
   PRESET_COMFORT,
   PRESET_AWAY,
   PRESET_AIRING,
   PRESET_PARTY,
   PRESET_HOLIDAYS,
   PRESET_ANTIFREEZE]

/-! ### climate.py: schedule-mode preset resolution -/

/-- `ThermostatClimate._async_get_current_schedule_preset`
(climate.py lines 212-233), as a pure function of the three temperature
values it compares: the target temperature, the comfort
(`day_target_temp`) parameter value and the eco (`night_target_temp`)
parameter value.  The Python body initialises the result to
`PRESET_UNKNOWN` and then runs two sequential (not elif) `if`
statements. -/
def getCurrentSchedulePreset (target_temp comfort_value eco_value : ℚ) : String :=
  let schedule_preset := PRESET_UNKNOWN
  let schedule_preset :=
    if target_temp = comfort_value ∧ target_temp ≠ eco_value then PRESET_COMFORT
    else schedule_preset
  let schedule_preset :=
    if target_temp = eco_value ∧ target_temp ≠ comfort_value then PRESET_ECO
    else schedule_preset
  schedule_preset

/-! ### Theorems for claims C1-C3 -/

/-- C1: the preset-name mapping tables round-trip.  For every device mode
code m in 0..7, `HA_TO_EM_MODE[EM_TO_HA_MODE[m]] = m`, and for every Home
Assistant preset name in the fixed preset set (the keys of
`HA_TO_EM_MODE`, i.e. `CLIMATE_MODES`), `EM_TO_HA_MODE[HA_TO_EM_MODE[p]] = p`. -/
theorem preset_mode_tables_roundtrip :
    (∀ m : Int, 0 ≤ m → m ≤ 7 →
      (EM_TO_HA_MODE.lookup m).bind HA_TO_EM_MODE.lookup = some m) ∧
    (∀ p ∈ CLIMATE_MODES,
      (HA_TO_EM_MODE.lookup p).bind EM_TO_HA_MODE.lookup = some p) := by
  constructor
  · intro m h0 h7
    interval_cases m <;> decide
  · intro p hp
    fin_cases hp <;> decide

theorem preset_mode_tables_roundtrip_witness :
    ((0:Int) ≤ 5 ∧ (5:Int) ≤ 7 ∧
      (EM_TO_HA_MODE.lookup (5:Int)).bind HA_TO_EM_MODE.lookup = some 5) ∧
    ("party" ∈ CLIMATE_MODES ∧
      (HA_TO_EM_MODE.lookup "party").bind EM_TO_HA_MODE.lookup = some "party") :=
  ⟨⟨by decide, by decide,
    preset_mode_tables_roundtrip.1 5 (by decide) (by decide)⟩,
   ⟨by decide,
    preset_mode_tables_roundtrip.2 "party" (by decide)⟩⟩

/-- C2: the selectable preset modes are exactly the eight enumerated
names, with no duplicates and no others, and they coincide with the keys
of `HA_TO_EM_MODE` (which is derived from `EM_TO_HA_MODE` by
inversion). -/
theorem climate_modes_exact :
    CLIMATE_MODES = ["schedule", "eco", "comfort", "away",
                     "airing", "party", "holidays", "antifreeze"] ∧
    CLIMATE_MODES = HA_TO_EM_MODE.map Prod.fst ∧
    CLIMATE_MODES.Nodup := by
  refine ⟨by decide, by decide, by decide⟩

/-- C3: the schedule-mode preset resolution heuristic returns
`PRESET_COMFORT` exactly when the target equals the comfort value and
differs from the eco value, `PRESET_ECO` exactly when the target equals
the eco value and differs from the comfort value, and `PRESET_UNKNOWN`
in every other case. -/
theorem schedule_preset_resolution (t c e : ℚ) :
    (getCurrentSchedulePreset t c e = PRESET_COMFORT ↔ (t = c ∧ t ≠ e)) ∧
    (getCurrentSchedulePreset t c e = PRESET_ECO ↔ (t = e ∧ t ≠ c)) ∧
    (¬(t = c ∧ t ≠ e) → ¬(t = e ∧ t ≠ c) →
      getCurrentSchedulePreset t c e = PRESET_UNKNOWN) := by
  unfold getCurrentSchedulePreset
  by_cases hc : t = c <;> by_cases he : t = e <;>
    simp [hc, he, PRESET_COMFORT, PRESET_ECO, PRESET_UNKNOWN] <;>
    split_ifs <;> simp_all

theorem schedule_preset_resolution_witness :
    ¬((0:ℚ) = 1 ∧ (0:ℚ) ≠ 2) ∧ ¬((0:ℚ) = 2 ∧ (0:ℚ) ≠ 1) ∧
    getCurrentSchedulePreset 0 1 2 = PRESET_UNKNOWN :=
  ⟨by simp, by simp,
   (schedule_preset_resolution 0 1 2).2.2 (by simp) (by simp)⟩

/-! ### services.py: get_parameter service (lines 133-171)

`device.get(name)` is a call into the pyplumio library; we model its
outcome for the requested parameter name as an input per selected
device: either a parameter (value with bounds) or one of the two caught
exceptions, `ParameterNotFoundError` and `TimeoutError`.  Any other
exception would propagate out of the handler untouched and is outside
this model. -/

inductive GetOutcome where
  | ok (value min_value max_value : ℚ)
  | parameterNotFound
  | timeout
deriving DecidableEq

def GetOutcome.isOk : GetOutcome → Bool
  | .ok _ _ _ => true
  | .parameterNotFound => false
  | .timeout => false

/-- One selected device as seen by the get_parameter handler:
its class name, the uid of the `product` it (or its parent) reports,
its `index` attribute when it has one (mixers), and the outcome of
`device.get(name)`. -/
structure ServiceDevice where
  className : String
  productUid : String
  index : Option Nat
  getOutcome : GetOutcome
deriving DecidableEq

/-- The record appended to `parameters` for each successful get
(services.py lines 149-161).  As a Python dict it always has at least
six keys, so it is always truthy under `any()`. -/
structure ParameterRecord where
  name : String
  value : ℚ
  min_value : ℚ
  max_value : ℚ
  device_type : String
  device_uid : String
  device_index : Option Nat
deriving DecidableEq

/-- The loop body of `async_get_parameter_service`: devices whose get
raises `ParameterNotFoundError` or `TimeoutError` are logged and
skipped, the rest contribute a record (with `device_index` set to
`device.index + 1` when the device has an index). -/
def getParameterRecords (name : String) (devices : List ServiceDevice) :
    List ParameterRecord :=
  devices.filterMap fun device =>
    match device.getOutcome with
    | .ok v mn mx =>
        some { name := name, value := v, min_value := mn, max_value := mx,
               device_type := device.className,
               device_uid := device.productUid,
               device_index := device.index.map (· + 1) }
    | .parameterNotFound => none
    | .timeout => none

/-- `async_get_parameter_service` (services.py lines 133-171).  After the
loop, `if not any(parameters)` raises `HomeAssistantError`; since every
collected record is a non-empty dict (truthy), this is exactly the test
that `parameters` is empty.  Otherwise the response is returned. -/
def async_get_parameter_service (name : String) (devices : List ServiceDevice) :
    Except String (List ParameterRecord) :=
  let parameters := getParameterRecords name devices
  if parameters.isEmpty then
    .error ("Could not get " ++ name ++ " parameter, check logs for more info")
  else
    .ok parameters

/-! ### services.py: set_parameter service (lines 188-207) -/

/-- The outcome of `device.set(name, value)` for one selected device:
a boolean success result, one of the two caught-and-logged exceptions,
or a `ValueError` (re-raised as `HomeAssistantError`). -/
inductive SetOutcome where
  | ok (result : Bool)
  | parameterNotFound
  | timeout
  | valueError (msg : String)
deriving DecidableEq

/-- The `for device in devices` loop of `async_set_parameter_service`:
accumulates the boolean results of the successful `device.set` calls
(`results.add(...)`), skips `ParameterNotFoundError`/`TimeoutError`, and
aborts with a `HomeAssistantError` on the first `ValueError`.  Python
collects `results` into a set; since only `any(results)` is consulted
afterwards, the list of results is an equivalent model. -/
def setParameterLoop (outcomes : List SetOutcome) (results : List Bool) :
    Except String (List Bool) :=
  match outcomes with
  | [] => .ok results
  | outcome :: rest =>
    match outcome with
    | .ok r => setParameterLoop rest (results ++ [r])
    | .parameterNotFound => setParameterLoop rest results
    | .timeout => setParameterLoop rest results
    | .valueError msg => .error ("Could not set parameter: " ++ msg)

/-- `async_set_parameter_service` (services.py lines 188-207): run the
loop, then `if not any(results)` raise a `HomeAssistantError`. -/
def async_set_parameter_service (name : String) (outcomes : List SetOutcome) :
    Except String Unit :=
  match setParameterLoop outcomes [] with
  | .error e => .error e
  | .ok results =>
    if results.any id then .ok ()
    else .error ("Could not set parameter " ++ name ++
                 ", please check logs for more info")

/-- Projection of a set outcome to its contributed result, when any. -/
def SetOutcome.okResult : SetOutcome → Option Bool
  | .ok r => some r
  | _ => none

theorem setParameterLoop_no_valueError (outcomes : List SetOutcome)
    (h : ∀ m, SetOutcome.valueError m ∉ outcomes) (results : List Bool) :
    setParameterLoop outcomes results =
      .ok (results ++ outcomes.filterMap SetOutcome.okResult) := by
  induction outcomes generalizing results with
  | nil => simp [setParameterLoop]
  | cons o rest ih =>
    have hrest : ∀ m, SetOutcome.valueError m ∉ rest := by
      intro m hm
      exact h m (List.mem_cons_of_mem _ hm)
    cases o with
    | ok r =>
        simp [setParameterLoop, SetOutcome.okResult, ih hrest]
    | parameterNotFound =>
        simp [setParameterLoop, SetOutcome.okResult, ih hrest]
    | timeout =>
        simp [setParameterLoop, SetOutcome.okResult, ih hrest]
    | valueError m =>
        exact absurd (List.mem_cons_self _ _) (h m)

theorem setParameterLoop_valueError (outcomes : List SetOutcome)
    (h : ∃ m, SetOutcome.valueError m ∈ outcomes) (results : List Bool) :
    ∃ e, setParameterLoop outcomes results = .error e := by
  induction outcomes generalizing results with
  | nil => simp at h
  | cons o rest ih =>
    obtain ⟨m, hm⟩ := h
    rcases List.mem_cons.mp hm with hm1 | hm2
    · subst hm1
      exact ⟨_, rfl⟩
    · cases o with
      | ok r => exact ih ⟨m, hm2⟩ _
      | parameterNotFound => exact ih ⟨m, hm2⟩ _
      | timeout => exact ih ⟨m, hm2⟩ _
      | valueError m2 => exact ⟨_, rfl⟩

/-! ### Theorems for claims C4-C5 -/

/-- C4: in the get_parameter service a `ParameterNotFoundError` or
`TimeoutError` from `device.get` skips that device; the service raises a
user-facing `HomeAssistantError` if and only if no parameter was
retrieved from any selected device (equivalently, every selected
device's get failed), and otherwise returns the list of retrieved
records. -/
theorem get_parameter_error_iff (name : String) (devices : List ServiceDevice) :
    ((∃ e, async_get_parameter_service name devices = .error e) ↔
      ∀ d ∈ devices, d.getOutcome.isOk = false) ∧
    (getParameterRecords name devices ≠ [] →
      async_get_parameter_service name devices =
        .ok (getParameterRecords name devices)) := by
  have hempty : getParameterRecords name devices = [] ↔
      ∀ d ∈ devices, d.getOutcome.isOk = false := by
    rw [getParameterRecords, List.filterMap_eq_nil_iff]
    constructor
    · intro h d hd
      have := h d hd
      cases hout : d.getOutcome <;> simp [hout, GetOutcome.isOk] at this ⊢
    · intro h d hd
      have := h d hd
      cases hout : d.getOutcome <;> simp [hout, GetOutcome.isOk] at this ⊢
  constructor
  · rw [← hempty]
    unfold async_get_parameter_service
    constructor
    · rintro ⟨e, he⟩
      by_cases hnil : (getParameterRecords name devices).isEmpty
      · exact List.isEmpty_iff.mp hnil
      · simp [hnil] at he
    · intro hnil
      exact ⟨"Could not get " ++ name ++ " parameter, check logs for more info",
        by simp [hnil]⟩
  · intro hne
    unfold async_get_parameter_service
    simp [List.isEmpty_iff, hne]

theorem get_parameter_error_iff_witness :
    (getParameterRecords "heating_target_temp"
        [⟨"ecomax", "uid1", none, GetOutcome.ok 60 30 80⟩] ≠ []) ∧
    (async_get_parameter_service "heating_target_temp"
        [⟨"ecomax", "uid1", none, GetOutcome.ok 60 30 80⟩] =
      .ok (getParameterRecords "heating_target_temp"
        [⟨"ecomax", "uid1", none, GetOutcome.ok 60 30 80⟩])) :=
  ⟨by decide,
   (get_parameter_error_iff "heating_target_temp"
      [⟨"ecomax", "uid1", none, GetOutcome.ok 60 30 80⟩]).2 (by decide)⟩

/-- C5: in the set_parameter service, `ParameterNotFoundError` and
`TimeoutError` from `device.set` are caught and logged (the loop
continues), a `ValueError` is re-raised as a user-facing
`HomeAssistantError`, and when no `ValueError` occurs the service
succeeds if and only if some `device.set` call returned a truthy
result. -/
theorem set_parameter_spec (name : String) (outcomes : List SetOutcome) :
    ((∃ m, SetOutcome.valueError m ∈ outcomes) →
      ∃ e, async_set_parameter_service name outcomes = .error e) ∧
    ((∀ m, SetOutcome.valueError m ∉ outcomes) →
      (async_set_parameter_service name outcomes = .ok () ↔
        SetOutcome.ok true ∈ outcomes)) := by
  constructor
  · intro h
    obtain ⟨e, he⟩ := setParameterLoop_valueError outcomes h []
    exact ⟨e, by simp [async_set_parameter_service, he]⟩
  · intro h
    rw [async_set_parameter_service, setParameterLoop_no_valueError outcomes h []]
    simp only [List.nil_append]
    by_cases hany : (outcomes.filterMap SetOutcome.okResult).any id
    · simp only [hany, if_true]
      rw [List.any_eq_true] at hany
      obtain ⟨b, hb, hid⟩ := hany
      rw [List.mem_filterMap] at hb
      obtain ⟨o, ho, hok⟩ := hb
      have hbtrue : b = true := hid
      subst hbtrue
      cases o with
      | ok r =>
          simp only [SetOutcome.okResult, Option.some.injEq] at hok
          subst hok
          simpa using ho
      | parameterNotFound => simp [SetOutcome.okResult] at hok
      | timeout => simp [SetOutcome.okResult] at hok
      | valueError m => simp [SetOutcome.okResult] at hok
    · simp only [hany, if_false]
      constructor
      · intro hcontra
        exact absurd hcontra (by simp)
      · intro hmem
        exfalso
        apply hany
        rw [List.any_eq_true]
        exact ⟨true, List.mem_filterMap.mpr ⟨_, hmem, rfl⟩, rfl⟩

theorem set_parameter_spec_witness :
    (∀ m, SetOutcome.valueError m ∉
      [SetOutcome.timeout, SetOutcome.ok true]) ∧
    (async_set_parameter_service "heating_target_temp"
        [SetOutcome.timeout, SetOutcome.ok true] = .ok () ↔
      SetOutcome.ok true ∈ [SetOutcome.timeout, SetOutcome.ok true]) :=
  ⟨by intro m hm; simp at hm,
   (set_parameter_spec "heating_target_temp"
      [SetOutcome.timeout, SetOutcome.ok true]).2
     (by intro m hm; simp at hm)⟩

/-! ### services.py: schedule services (lines 217-294)

The schedule objects live in the pyplumio library.  In pyplumio,
`TIME_FORMAT` is the strftime pattern for hours and minutes and
`START_OF_DAY` is midnight in that format; the handler computes
`strptime(START_OF_DAY, TIME_FORMAT) + timedelta(minutes=30*index)` and
renders it back with `strftime(TIME_FORMAT)`.  We model a time of day as
minutes and the rendering as `strftimeHM` below: Python's datetime
arithmetic rolls over into the next day, so the rendered time is the
minute total modulo one day. -/

def STATE_ON : String := "on"

def STATE_OFF : String := "off"

/-- Render a natural number as at least two decimal digits, as `%H`/`%M`
do. -/
def twoDigit (n : Nat) : String :=
  if n < 10 then "0" ++ toString n else "" ++ toString n

/-- `strftime(TIME_FORMAT)` on a datetime that lies `minutes` minutes
after midnight of the epoch day. -/
def strftimeHM (minutes : Nat) : String :=
  twoDigit (minutes / 60 % 24) ++ ":" ++ twoDigit (minutes % 60)

/-- `strptime(START_OF_DAY, TIME_FORMAT)` is midnight: zero minutes. -/
def START_OF_DAY_MINUTES : Nat := 0

/-- One pyplumio `ScheduleDay`: its `intervals` array of boolean
half-hour slots, and the behaviour of `set_state(state, start, end)`,
which either succeeds or raises a `ValueError` while parsing the time
interval. -/
structure ScheduleDay where
  intervals : List Bool
  setStateResult : String → String → String → Except String Unit

/-- One pyplumio `Schedule`: its per-weekday days, accessed by
`getattr(schedule, weekday)` where `weekday` was validated against
`WEEKDAYS` by the service schema. -/
structure Schedule where
  days : String → ScheduleDay

/-- The dict comprehension of `async_get_schedule_service`
(services.py lines 233-238): index i of the weekday's interval array is
keyed by `START_OF_DAY + 30*i` minutes rendered with `TIME_FORMAT`.
The comprehension is modelled as the association list in enumeration
order; for the 48 half-hour slots of a real device day all keys are
distinct, so the Python dict has exactly these entries. -/
def scheduleIntervals (intervals : List Bool) : List (String × Bool) :=
  intervals.enum.map fun p =>
    (strftimeHM (START_OF_DAY_MINUTES + 30 * p.1), p.2)

/-- `async_get_schedule_service` (services.py lines 223-244): look the
requested type up among the schedules present on the device
(`connection.device.get_nowait(ATTR_SCHEDULES, {})`, modelled as an
association list); on a hit return the translated intervals of the
requested weekday, otherwise raise a user-facing `HomeAssistantError`. -/
def async_get_schedule_service (schedules : List (String × Schedule))
    (schedule_type weekday : String) : Except String (List (String × Bool)) :=
  match schedules.lookup schedule_type with
  | some schedule => .ok (scheduleIntervals (schedule.days weekday).intervals)
  | none => .error (schedule_type ++
      " schedule is not supported by the device, check logs for more info")

/-- Python `s[:-3]`, applied to the validated `%H:%M:%S` strings to chop
the seconds off before handing them to `set_state`. -/
def dropLast3 (s : String) : String :=
  (s.toList.take (s.toList.length - 3)).asString

/-- The externally visible calls `async_set_schedule_service` makes on
the schedule objects, in order: `schedule_day.set_state(state, start,
end)` and `schedule.commit()`. -/
inductive ScheduleEffect where
  | setState (weekday state start stop : String)
  | commit
deriving DecidableEq

/-- `async_set_schedule_service` (services.py lines 261-287), returning
the handler result together with the trace of mutation calls it issued.
Unsupported type: error, no calls.  `set_state` raising `ValueError`:
the error is re-raised as a `HomeAssistantError` and `commit` is never
reached.  Otherwise `commit` follows `set_state`. -/
def async_set_schedule_service (schedules : List (String × Schedule))
    (schedule_type weekday : String) (state : Bool) (start_time end_time : String) :
    Except String Unit × List ScheduleEffect :=
  match schedules.lookup schedule_type with
  | none =>
      (.error (schedule_type ++
        " schedule is not supported by the device, check logs for more info"), [])
  | some schedule =>
    let schedule_day := schedule.days weekday
    let stateArg := if state then STATE_ON else STATE_OFF
    let startArg := dropLast3 start_time
    let stopArg := dropLast3 end_time
    match schedule_day.setStateResult stateArg startArg stopArg with
    | .error _ =>
        (.error ("Error while trying to parse time interval for " ++
           schedule_type ++ " schedule"),
         [.setState weekday stateArg startArg stopArg])
    | .ok _ =>
        (.ok (), [.setState weekday stateArg startArg stopArg, .commit])

/-! ### Theorems for claims C6-C8 -/

/-- C6: for a supported schedule type, get_schedule returns the weekday's
interval array translated index-by-index: the mapping has one entry per
interval, and its i-th entry is keyed by `START_OF_DAY` plus `30*i`
minutes rendered with `TIME_FORMAT` and carries the i-th interval value,
so consecutive keys are 30 minutes apart starting at the start of day. -/
theorem get_schedule_intervals_spec (schedules : List (String × Schedule))
    (schedule_type weekday : String) (schedule : Schedule)
    (hs : schedules.lookup schedule_type = some schedule) :
    async_get_schedule_service schedules schedule_type weekday =
      .ok (scheduleIntervals (schedule.days weekday).intervals) ∧
    (scheduleIntervals (schedule.days weekday).intervals).length =
      (schedule.days weekday).intervals.length ∧
    (∀ i v, ((schedule.days weekday).intervals)[i]? = some v →
      (scheduleIntervals (schedule.days weekday).intervals)[i]? =
        some (strftimeHM (START_OF_DAY_MINUTES + 30 * i), v)) := by
  refine ⟨by simp [async_get_schedule_service, hs], ?_, ?_⟩
  · simp [scheduleIntervals]
  · intro i v hv
    simp [scheduleIntervals, List.getElem?_map, List.getElem?_enum, hv]

theorem get_schedule_intervals_spec_witness :
    ([("heating", Schedule.mk (fun _ => ScheduleDay.mk [true, false, true]
        (fun _ _ _ => Except.ok ())))].lookup "heating" =
      some (Schedule.mk (fun _ => ScheduleDay.mk [true, false, true]
        (fun _ _ _ => Except.ok ())))) ∧
    (async_get_schedule_service
        [("heating", Schedule.mk (fun _ => ScheduleDay.mk [true, false, true]
          (fun _ _ _ => Except.ok ())))] "heating" "monday" =
      .ok [("00:00", true), ("00:30", false), ("01:00", true)]) := by
  constructor
  · rfl
  · have h := (get_schedule_intervals_spec
      [("heating", Schedule.mk (fun _ => ScheduleDay.mk [true, false, true]
        (fun _ _ _ => Except.ok ())))] "heating" "monday"
      (Schedule.mk (fun _ => ScheduleDay.mk [true, false, true]
        (fun _ _ _ => Except.ok ()))) rfl).1
    rw [h]
    rfl

/-- C7: when the requested schedule type is not among the schedules
present on the device, both schedule services raise a user-facing
`HomeAssistantError` stating the schedule is not supported, and
set_schedule issues no mutation call at all. -/
theorem schedule_type_not_supported (schedules : List (String × Schedule))
    (schedule_type weekday : String) (state : Bool) (start_time end_time : String)
    (h : schedules.lookup schedule_type = none) :
    async_get_schedule_service schedules schedule_type weekday =
      .error (schedule_type ++
        " schedule is not supported by the device, check logs for more info") ∧
    (async_set_schedule_service schedules schedule_type weekday state
        start_time end_time).1 =
      .error (schedule_type ++
        " schedule is not supported by the device, check logs for more info") ∧
    (async_set_schedule_service schedules schedule_type weekday state
        start_time end_time).2 = [] := by
  refine ⟨?_, ?_, ?_⟩ <;>
    simp [async_get_schedule_service, async_set_schedule_service, h]

theorem schedule_type_not_supported_witness :
    (([] : List (String × Schedule)).lookup "water_heater" = none) ∧
    (async_set_schedule_service [] "water_heater" "monday" true
        "00:00:00" "10:00:00").2 = [] :=
  ⟨rfl,
   (schedule_type_not_supported [] "water_heater" "monday" true
      "00:00:00" "10:00:00" rfl).2.2⟩

/-- C8: when `set_state` raises a `ValueError` while parsing the time
interval, set_schedule raises a `HomeAssistantError` and never calls
`schedule.commit()`: the device-side schedule is left uncommitted. -/
theorem set_schedule_valueerror_no_commit (schedules : List (String × Schedule))
    (schedule_type weekday : String) (state : Bool) (start_time end_time : String)
    (schedule : Schedule) (msg : String)
    (hs : schedules.lookup schedule_type = some schedule)
    (hfail : (schedule.days weekday).setStateResult
        (if state then STATE_ON else STATE_OFF)
        (dropLast3 start_time) (dropLast3 end_time) = .error msg) :
    (async_set_schedule_service schedules schedule_type weekday state
        start_time end_time).1 =
      .error ("Error while trying to parse time interval for " ++
        schedule_type ++ " schedule") ∧
    ScheduleEffect.commit ∉
      (async_set_schedule_service schedules schedule_type weekday state
        start_time end_time).2 := by
  unfold async_set_schedule_service
  rw [hs]
  simp [hfail]

theorem set_schedule_valueerror_no_commit_witness :
    ([("heating", Schedule.mk (fun _ => ScheduleDay.mk []
        (fun _ _ _ => Except.error "bad interval")))].lookup "heating" =
      some (Schedule.mk (fun _ => ScheduleDay.mk []
        (fun _ _ _ => Except.error "bad interval")))) ∧
    ScheduleEffect.commit ∉
      (async_set_schedule_service
        [("heating", Schedule.mk (fun _ => ScheduleDay.mk []
          (fun _ _ _ => Except.error "bad interval")))]
        "heating" "monday" true "07:30:00" "09:00:00").2 :=
  ⟨rfl,
   (set_schedule_valueerror_no_commit
      [("heating", Schedule.mk (fun _ => ScheduleDay.mk []
        (fun _ _ _ => Except.error "bad interval")))]
      "heating" "monday" true "07:30:00" "09:00:00"
      (Schedule.mk (fun _ => ScheduleDay.mk []
        (fun _ _ _ => Except.error "bad interval")))
      "bad interval" rfl rfl).2⟩

/-! ### climate.py: ThermostatClimate state updates (lines 143-233)

The entity's mutable attributes touched by `async_update_preset_mode`
are modelled as an explicit state record; the thermostat device is
modelled by the sensor value `target_temp` and the parameter table
consulted by `await self.device.get(name)`.  `async_write_ha_state` is
modelled as the boolean in the result: `true` when it was called. -/

structure ThermostatParameterM where
  value : ℚ
  min_value : ℚ
  max_value : ℚ
deriving DecidableEq

structure ThermostatDevice where
  target_temp : ℚ
  param : String → ThermostatParameterM

structure ClimateState where
  preset_mode : Option String
  target_temperature_name : Option String
  min_temp : Option ℚ
  max_temp : Option ℚ
deriving DecidableEq

/-- `_async_get_current_schedule_preset` (climate.py lines 212-233) wired
to the device model: fetch the target temperature unless one was passed
in, fetch the comfort and eco parameters, and compare. -/
def getCurrentSchedulePresetDev (dev : ThermostatDevice)
    (target_temp : Option ℚ) : String :=
  let tt := target_temp.getD dev.target_temp
  let comfort_temp := dev.param ((HA_PRESET_TO_EM_TEMP.lookup PRESET_COMFORT).getD "")
  let eco_temp := dev.param ((HA_PRESET_TO_EM_TEMP.lookup PRESET_ECO).getD "")
  getCurrentSchedulePreset tt comfort_temp.value eco_temp.value

/-- `_async_update_target_temperature_attributes` (climate.py lines
186-210).  A `KeyError` raised by `HA_PRESET_TO_EM_TEMP[preset_mode]`
(only reachable when the preset is unset or outside the table) is
modelled as an `Except.error`. -/
def updateTargetTemperatureAttributes (dev : ThermostatDevice)
    (st : ClimateState) (target_temp : Option ℚ) : Except String ClimateState :=
  let preset_mode := st.preset_mode
  let preset_mode :=
    if preset_mode = some PRESET_SCHEDULE then
      some (getCurrentSchedulePresetDev dev target_temp)
    else preset_mode
  if preset_mode = some PRESET_AIRING ∨ preset_mode = some PRESET_UNKNOWN then
    .ok st
  else
    match preset_mode with
    | none => .error "KeyError"
    | some p =>
      match HA_PRESET_TO_EM_TEMP.lookup p with
      | none => .error "KeyError"
      | some target_temperature_name =>
        if st.target_temperature_name = some target_temperature_name then
          .ok st
        else
          let parameter := dev.param target_temperature_name
          .ok { st with
                target_temperature_name := some target_temperature_name,
                max_temp := some parameter.max_value,
                min_temp := some parameter.min_value }

/-- `async_update_preset_mode` (climate.py lines 151-165), after the
`ThermostatParameter`-to-int coercion: an unknown mode code is logged
and the handler returns without touching the entity; a known code sets
the preset, refreshes the target-temperature attributes and writes the
state (the `true` in the result). -/
def async_update_preset_mode (dev : ThermostatDevice) (st : ClimateState)
    (mode : Int) : Except String (ClimateState × Bool) :=
  match EM_TO_HA_MODE.lookup mode with
  | none => .ok (st, false)
  | some preset_mode =>
    let st1 := { st with preset_mode := some preset_mode }
    match updateTargetTemperatureAttributes dev st1 none with
    | .error e => .error e
    | .ok st2 => .ok (st2, true)

/-! ### number.py: EcomaxNumber properties (lines 50-72) -/

/-- The object returned by `self.get_attribute(self._id)` when the
underlying device attribute is present: pyplumio exposes `value`,
`min_` and `max_` on it. -/
structure NumberAttribute where
  value : ℚ
  min_ : ℚ
  max_ : ℚ
deriving DecidableEq

namespace EcomaxNumber

/-- `EcomaxNumber.value` (number.py lines 50-56) as a function of what
`get_attribute` returned. -/
def value (attr : Option NumberAttribute) : ℚ :=
  match attr with
  | some a => a.value
  | none => 0

/-- `EcomaxNumber.min_value` (number.py lines 58-64). -/
def min_value (attr : Option NumberAttribute) : ℚ :=
  match attr with
  | some a => a.min_
  | none => 0

/-- `EcomaxNumber.max_value` (number.py lines 66-72). -/
def max_value (attr : Option NumberAttribute) : ℚ :=
  match attr with
  | some a => a.max_
  | none => 0

end EcomaxNumber

/-! ### Theorems for claims C9-C10 -/

/-- C9: for every integer mode code outside 0..7 (the domain of
`EM_TO_HA_MODE`), `async_update_preset_mode` logs and returns early:
the entity state (preset mode, target temperature name, min/max
temperatures) is returned unchanged and no state write happens
(the boolean is `false`). -/
theorem update_preset_mode_unknown_frame (dev : ThermostatDevice)
    (st : ClimateState) (mode : Int) (h : mode < 0 ∨ 7 < mode) :
    async_update_preset_mode dev st mode = .ok (st, false) := by
  have h0 : (mode == (0:Int)) = false := by rw [beq_eq_false_iff_ne]; omega
  have h1 : (mode == (1:Int)) = false := by rw [beq_eq_false_iff_ne]; omega
  have h2 : (mode == (2:Int)) = false := by rw [beq_eq_false_iff_ne]; omega
  have h3 : (mode == (3:Int)) = false := by rw [beq_eq_false_iff_ne]; omega
  have h4 : (mode == (4:Int)) = false := by rw [beq_eq_false_iff_ne]; omega
  have h5 : (mode == (5:Int)) = false := by rw [beq_eq_false_iff_ne]; omega
  have h6 : (mode == (6:Int)) = false := by rw [beq_eq_false_iff_ne]; omega
  have h7 : (mode == (7:Int)) = false := by rw [beq_eq_false_iff_ne]; omega
  have hnone : EM_TO_HA_MODE.lookup mode = none := by
    simp [EM_TO_HA_MODE, List.lookup, h0, h1, h2, h3, h4, h5, h6, h7]
  simp [async_update_preset_mode, hnone]

theorem update_preset_mode_unknown_frame_witness :
    ((7:Int) < 8) ∧
    (async_update_preset_mode ⟨0, fun _ => ⟨0, 0, 0⟩⟩ ⟨none, none, none, none⟩ 8 =
      .ok (⟨none, none, none, none⟩, false)) :=
  ⟨by decide,
   update_preset_mode_unknown_frame ⟨0, fun _ => ⟨0, 0, 0⟩⟩
     ⟨none, none, none, none⟩ 8 (Or.inr (by decide))⟩

/-- C10: when the underlying device attribute is absent
(`get_attribute` returns `None`), the `value`, `min_value` and
`max_value` properties all return 0; when it is present they return the
attribute's `value`, `min_` and `max_`. -/
theorem number_absent_attribute_defaults (attr : Option NumberAttribute) :
    (attr = none →
      EcomaxNumber.value attr = 0 ∧ EcomaxNumber.min_value attr = 0 ∧
      EcomaxNumber.max_value attr = 0) ∧
    (∀ a, attr = some a →
      EcomaxNumber.value attr = a.value ∧ EcomaxNumber.min_value attr = a.min_ ∧
      EcomaxNumber.max_value attr = a.max_) := by
  cases attr <;>
    simp [EcomaxNumber.value, EcomaxNumber.min_value, EcomaxNumber.max_value]

theorem number_absent_attribute_defaults_witness :
    EcomaxNumber.value none = 0 ∧ EcomaxNumber.min_value none = 0 ∧
    EcomaxNumber.max_value none = 0 :=
  (number_absent_attribute_defaults none).1 rfl

end PlumEcomax
